import Mathlib

/-!
Verification of the `@dreamer/logger` server engine against its specification.

The definitions below are a shallow embedding of the TypeScript module
(`mod.ts` of the server logger): pure functions become Lean functions, the
mutable Logger fields that the verified operations touch (`logCount`,
`performanceData`, the file handle/writer, the module-level
`_originalConsole` slot) become explicit state that is passed and returned,
and the ambient effects (environment variables, TTY detection,
`Math.random()`, `Date.now()`, the filesystem) become explicit parameters.
Machine numbers that the source only compares are modelled as `Nat`/`Int`,
and `Math.random()`/sampling rates as rationals.
-/

namespace DreamerLogger

/-- Log levels, in the source's declaration order. -/
inductive LogLevel
  | debug
  | info
  | warn
  | error
  | fatal
deriving DecidableEq

/-- `LOG_LEVELS`: numeric priority of each level (smaller = lower priority). -/
def LOG_LEVELS : LogLevel → Nat
  | .debug => 0
  | .info => 1
  | .warn => 2
  | .error => 3
  | .fatal => 4

/-- `MAX_PERFORMANCE_ENTRIES`: capacity bound of the performance map. -/
def MAX_PERFORMANCE_ENTRIES : Nat := 1000

/-- `DEFAULT_MAX_MESSAGE_LENGTH = 32 * 1024`. -/
def DEFAULT_MAX_MESSAGE_LENGTH : Nat := 32 * 1024

/-- Log output formats. -/
inductive LogFormat
  | text
  | json
  | color
deriving DecidableEq

/-- JSON-like scalar values, enough for the `data`/`context` payloads the
claims inspect. -/
inductive JVal
  | num (n : Int)
  | str (s : String)
  | jbool (b : Bool)
deriving DecidableEq

/-- A JS object as an ordered association list of fields. -/
abbrev JObj := List (String × JVal)

/-- JS object spread `{...a, ...b}`: fields of `a` not overridden by `b`,
followed by the fields of `b`. -/
def spreadMerge (a b : JObj) : JObj :=
  a.filter (fun p => !(b.any (fun q => q.1 == p.1))) ++ b

/-- Insertion-ordered string-keyed map, modelling a JS `Map<string, _>`
(and, for the rotation model, a directory of files). -/
abbrev MapL (α : Type) := List (String × α)

/-- `Map.get` -/
def mget {α : Type} (m : MapL α) (k : String) : Option α :=
  (m.find? (fun p => p.1 == k)).map (·.2)

/-- `Map.set`: replaces in place when the key exists, else appends
(preserving JS `Map` insertion order). -/
def mset {α : Type} (m : MapL α) (k : String) (v : α) : MapL α :=
  if m.any (fun p => p.1 == k) then
    m.map (fun p => if p.1 == k then (k, v) else p)
  else m ++ [(k, v)]

/-- `Map.delete` -/
def mdelete {α : Type} (m : MapL α) (k : String) : MapL α :=
  m.filter (fun p => !(p.1 == k))

/-- `Map.size` -/
def msize {α : Type} (m : MapL α) : Nat := m.length

/-- `map.keys().next().value`: the first-inserted key. -/
def mfirstKey {α : Type} (m : MapL α) : Option String := m.head?.map (·.1)

/-- A log entry, as constructed by the internal `log` method and threaded
through `writeLog`. `tags := []` / `context := []` model the absent
(`undefined`) fields of a freshly built entry. -/
structure LogEntry where
  timestamp : String := ""
  level : LogLevel
  message : String
  data : Option JObj := none
  error : Option String := none
  tags : List String := []
  context : JObj := []
deriving DecidableEq

/-- `LogFilterConfig`. -/
structure LogFilterConfig where
  includeTags : Option (List String) := none
  excludeTags : Option (List String) := none
  custom : Option (LogEntry → Bool) := none

/-- `LogSamplingConfig`; the rate is a rational standing for the JS number. -/
structure LogSamplingConfig where
  rate : ℚ
  levels : Option (List LogLevel) := none

/-- The resolved configuration a constructed `Logger` holds
(`Required<Omit<LoggerConfig, "filter" | "sampling">> & …`): every field the
constructor defaults is present, `filter`/`sampling` stay optional. -/
structure Config where
  level : LogLevel
  format : LogFormat
  color : Bool
  showTime : Bool
  showLevel : Bool
  tags : List String
  context : JObj
  filter : Option LogFilterConfig
  sampling : Option LogSamplingConfig
  maxMessageLength : Nat

/-- `Logger.shouldLog`: the level gate, `LOG_LEVELS[level] >= LOG_LEVELS[config.level]`. -/
def shouldLog (cfg : Config) (level : LogLevel) : Bool :=
  decide (LOG_LEVELS level ≥ LOG_LEVELS cfg.level)

/-- `Logger.updateFilterSets`: derives `(includeTagsSet, excludeTagsSet)`
from the filter config; a set is only materialised when the corresponding
tag list is present and non-empty. -/
def updateFilterSets (filter : Option LogFilterConfig) :
    Option (List String) × Option (List String) :=
  ((filter.bind fun f => f.includeTags.bind fun l =>
      if 0 < l.length then some l else none),
   (filter.bind fun f => f.excludeTags.bind fun l =>
      if 0 < l.length then some l else none))

/-- `entry.tags?.some((tag) => set.has(tag))`. -/
def hasAnyTag (tags : List String) (s : List String) : Bool :=
  tags.any (fun t => decide (t ∈ s))

/-- `Logger.shouldFilterByTags`: exclude set first, then include set, then
the custom predicate. -/
def shouldFilterByTags (filter : Option LogFilterConfig) (entry : LogEntry) : Bool :=
  match filter with
  | none => true
  | some f =>
    if ((updateFilterSets (some f)).2).elim false (fun ex => hasAnyTag entry.tags ex) then
      false
    else if ((updateFilterSets (some f)).1).elim false
        (fun inc => !(hasAnyTag entry.tags inc)) then
      false
    else
      match f.custom with
      | some p => p entry
      | none => true

/-- The level-allow-list bypass inside `shouldSample`: present, non-empty
and not containing the entry's level. -/
def samplingBypass (s : LogSamplingConfig) (level : LogLevel) : Bool :=
  match s.levels with
  | some ls => decide (0 < ls.length) && !(decide (level ∈ ls))
  | none => false

/-- `Logger.shouldSample`: returns the verdict together with the updated
`logCount`; the `Math.random()` draw is injected as `rnd`. -/
def shouldSample (sampling : Option LogSamplingConfig) (level : LogLevel)
    (logCount : Nat) (rnd : ℚ) : Bool × Nat :=
  match sampling with
  | none => (true, logCount)
  | some s =>
    if samplingBypass s level then (true, logCount)
    else (decide (rnd < s.rate), logCount + 1)

/-- `Logger.truncateMessageIfNeeded`: truncate to `maxMessageLength`
characters and append a single ellipsis; `0` disables. -/
def truncateMessageIfNeeded (maxLen : Nat) (entry : LogEntry) : LogEntry :=
  if maxLen ≤ 0 ∨ entry.message.length ≤ maxLen then entry
  else { entry with message := entry.message.take maxLen ++ "…" }

/-- `Logger.writeLog` up to dispatch: returns the `finalEntry` handed to the
output targets (`none` when the call is rejected) and the updated
`logCount`. -/
def writeLog (cfg : Config) (logCount : Nat) (rnd : ℚ) (entry : LogEntry) :
    Option LogEntry × Nat :=
  if !(shouldLog cfg entry.level) then (none, logCount)
  else
    let merged : LogEntry :=
      { entry with
        tags := cfg.tags ++ entry.tags,
        context := spreadMerge cfg.context entry.context }
    if !(shouldFilterByTags cfg.filter merged) then (none, logCount)
    else
      let sres := shouldSample cfg.sampling merged.level logCount rnd
      if !sres.1 then (none, sres.2)
      else (some (truncateMessageIfNeeded cfg.maxMessageLength merged), sres.2)

/-- `PerformanceData`: one in-flight timing record. -/
structure PerformanceData where
  operation : String
  startTime : Int
  endTime : Option Int := none
  duration : Option Int := none
  data : Option JObj := none
deriving DecidableEq

/-- `Logger.startPerformance`: evicts the first-inserted record when the map
is at capacity, then inserts under a fresh id and returns it.  The
`Date.now()-Math.random()` suffix of the generated id is injected as
`idSuffix`. -/
def startPerformance (perf : MapL PerformanceData) (operation : String)
    (idSuffix : String) (now : Int) (data : Option JObj) :
    String × MapL PerformanceData :=
  let perf1 :=
    if msize perf ≥ MAX_PERFORMANCE_ENTRIES then
      match mfirstKey perf with
      | some k => mdelete perf k
      | none => perf
    else perf
  let id := operation ++ "-" ++ idSuffix
  (id, mset perf1 id ⟨operation, now, none, none, data⟩)

/-- The side of `Logger.endPerformance` before the emitted entry enters the
pipeline: the `(level, message, data)` triple it hands to
`warn`/`debug`/…, and the updated performance map. -/
def endPerformanceCall (perf : MapL PerformanceData) (now : Int) (id : String)
    (level : LogLevel) : (LogLevel × String × Option JObj) × MapL PerformanceData :=
  match mget perf id with
  | none => ((.warn, "性能监控 ID 不存在: " ++ id, none), perf)
  | some pd =>
    ((level,
      "性能监控: " ++ pd.operation ++ " 耗时 " ++ toString (now - pd.startTime) ++ "ms",
      some (spreadMerge (pd.data.getD [])
        [("duration", .num (now - pd.startTime)),
         ("startTime", .num pd.startTime),
         ("endTime", .num now)])),
     mdelete perf id)

/-- `Logger.endPerformance` end to end: the issued call goes through the
Logger's own `log`/`writeLog` pipeline.  Returns the dispatched entry (if
any), the updated performance map and the updated `logCount`. -/
def endPerformance (cfg : Config) (logCount : Nat) (rnd : ℚ)
    (perf : MapL PerformanceData) (now : Int) (timestamp : String)
    (id : String) (level : LogLevel) :
    Option LogEntry × MapL PerformanceData × Nat :=
  let r := endPerformanceCall perf now id level
  let w := writeLog cfg logCount rnd
    { timestamp := timestamp, level := r.1.1, message := r.1.2.1, data := r.1.2.2 }
  (w.1, r.2, w.2)

/-- Names of the five global console methods. -/
inductive ConsoleMethodName
  | clog
  | cinfo
  | cwarn
  | cerror
  | cdebug
deriving DecidableEq

/-- A value stored in a console slot: either a true native console method or
a forwarder installed by `redirectConsoleToLogger` that calls the named
method of logger `loggerId`. -/
inductive ConsoleMethod
  | native (name : ConsoleMethodName)
  | forwarder (loggerId : Nat) (target : ConsoleMethodName)
deriving DecidableEq

/-- The five mutable method slots of the global console object. -/
structure ConsoleObj where
  log : ConsoleMethod
  info : ConsoleMethod
  warn : ConsoleMethod
  error : ConsoleMethod
  debug : ConsoleMethod
deriving DecidableEq

/-- The process-wide state the redirector manipulates: the global console
and the module-level `_originalConsole` slot. -/
structure ConsoleState where
  console : ConsoleObj
  originalConsole : Option ConsoleObj
deriving DecidableEq

/-- The untouched global console. -/
def nativeConsole : ConsoleObj :=
  ⟨.native .clog, .native .cinfo, .native .cwarn, .native .cerror, .native .cdebug⟩

/-- The process state before any redirection. -/
def initialConsoleState : ConsoleState := ⟨nativeConsole, none⟩

/-- `redirectConsoleToLogger`: saves the current global console into
`_originalConsole` and installs forwarders
(log→info, info→info, warn→warn, error→error, debug→debug). -/
def redirectConsoleToLogger (loggerId : Nat) (s : ConsoleState) : ConsoleState :=
  { console :=
      ⟨.forwarder loggerId .cinfo, .forwarder loggerId .cinfo,
       .forwarder loggerId .cwarn, .forwarder loggerId .cerror,
       .forwarder loggerId .cdebug⟩,
    originalConsole := some s.console }

/-- `restoreConsole`: reinstates the captured console, if one is held. -/
def restoreConsole (s : ConsoleState) : ConsoleState :=
  match s.originalConsole with
  | some c => ⟨c, none⟩
  | none => s

/-- The environment inputs of the color policy: whether `NO_COLOR` is set
to a truthy value, and whether stdout is a terminal. -/
structure ColorEnv where
  noColor : Bool
  tty : Bool
deriving DecidableEq

/-- `shouldUseColor(config, isFileOutput)`, with the config's optional
`color`/`format` fields and the ambient environment made explicit. -/
def shouldUseColor (color : Option Bool) (format : LogFormat) (env : ColorEnv)
    (isFileOutput : Bool) : Bool :=
  if isFileOutput then false
  else
    match color with
    | some c => c
    | none =>
      if env.noColor then false
      else if format == .color && env.tty then true
      else false

/-- The constructor's color derivation:
`config.color ?? (config.format === "color" && isTTY())`, over the raw
(optional) input fields. -/
def constructorColor (configColor : Option Bool) (configFormat : Option LogFormat)
    (tty : Bool) : Bool :=
  configColor.getD (configFormat == some .color && tty)

/-- Color decision for the console target of a constructed Logger: `writeLog`
calls `shouldUseColor(this.config, false)` where `this.config.color` is the
constructor-materialised value and `this.config.format` the defaulted one. -/
def loggerConsoleColor (configColor : Option Bool) (configFormat : Option LogFormat)
    (env : ColorEnv) : Bool :=
  shouldUseColor (some (constructorColor configColor configFormat env.tty))
    (configFormat.getD .text) env false

/-- A directory as a map from path to file contents. -/
abbrev FS := MapL String

/-- `rename(src, dst)`: fails (throws, modelled as `none`) when the source
does not exist; otherwise moves the contents, overwriting `dst`. -/
def fsRename (fs : FS) (src dst : String) : Option FS :=
  match mget fs src with
  | none => none
  | some content => some (mset (mdelete fs src) dst content)

/-- The file-output state a Logger owns: the directory it acts on, whether
`fileWriter`/`fileHandle` are present, and the configured `filePath`. -/
structure FileState where
  fs : FS
  fileWriter : Bool
  fileHandle : Bool
  filePath : Option String
deriving DecidableEq

/-- Observable steps of `rotateLog`, in execution order. -/
inductive RotAction
  | closeWriter
  | closeHandle
  | tryRename (src dst : String) (ok : Bool)
  | warnCompress
  | reopen
deriving DecidableEq

/-- The source/destination of a rename step. -/
def srcDst : RotAction → Option (String × String)
  | .tryRename s d _ => some (s, d)
  | _ => none

/-- `` `${path}.${i}` `` -/
def backupPath (path : String) (i : Nat) : String :=
  path ++ "." ++ toString i

/-- `path.includes("..")` over the character list. -/
def containsDotDot : List Char → Bool
  | '.' :: '.' :: _ => true
  | _ :: rest => containsDotDot rest
  | [] => false

/-- `Logger.isAllowedLogPath`: rejects paths containing `..`. -/
def isAllowedLogPath (path : String) : Bool :=
  !(containsDotDot path.data)

/-- `Logger.initFileOutput` on the filesystem model: rejects traversal
paths, else opens the file with create+append semantics (creating an empty
file when absent); the returned flag is whether a writer is now open. -/
def initFileOutput (fs : FS) (path : String) : FS × Bool :=
  if isAllowedLogPath path then
    match mget fs path with
    | some _ => (fs, true)
    | none => (mset fs path "", true)
  else (fs, false)

/-- The backup-shift loop of `rotateLog`: for `i = n` down to `1`, attempt
`rename(path.i, path.(i+1))`, ignoring failures for missing files.  Returns
the resulting directory and the trace of attempts in execution order. -/
def shiftBackups (fs : FS) (path : String) : Nat → FS × List RotAction
  | 0 => (fs, [])
  | n + 1 =>
    match fsRename fs (backupPath path (n + 1)) (backupPath path (n + 2)) with
    | some fs2 =>
      let r := shiftBackups fs2 path n
      (r.1, .tryRename (backupPath path (n + 1)) (backupPath path (n + 2)) true :: r.2)
    | none =>
      let r := shiftBackups fs path n
      (r.1, .tryRename (backupPath path (n + 1)) (backupPath path (n + 2)) false :: r.2)

/-- `Logger.rotateLog(maxFiles, compress)`: close writer and handle
(ignoring errors), shift the numbered backups, rename the active file to
`path.1`, optionally warn about compression, and reopen — also on the error
path (the `catch` block reopens as well).  Returns the new state and the
trace of steps in execution order. -/
def rotateLog (st : FileState) (maxFiles : Nat) (compress : Bool) :
    FileState × List RotAction :=
  match st.filePath with
  | none => (st, [])
  | some path =>
    let closeActs : List RotAction :=
      (if st.fileWriter then [.closeWriter] else []) ++
      (if st.fileHandle then [.closeHandle] else [])
    let shifted := shiftBackups st.fs path (maxFiles - 1)
    match fsRename shifted.1 path (backupPath path 1) with
    | some fs3 =>
      let opened := initFileOutput fs3 path
      (⟨opened.1, opened.2, opened.2, st.filePath⟩,
       closeActs ++ shifted.2 ++ [.tryRename path (backupPath path 1) true] ++
         (if compress then [.warnCompress] else []) ++ [.reopen])
    | none =>
      let opened := initFileOutput shifted.1 path
      (⟨opened.1, opened.2, opened.2, st.filePath⟩,
       closeActs ++ shifted.2 ++ [.tryRename path (backupPath path 1) false, .reopen])

/-! ### Concrete fixtures used by witnesses and counterexamples -/

/-- Concrete configuration used by witnesses: level `warn`, no filter, no
sampling, defaults elsewhere. -/
def warnCfg : Config :=
  { level := .warn, format := .text, color := false, showTime := true,
    showLevel := true, tags := [], context := [], filter := none,
    sampling := none, maxMessageLength := DEFAULT_MAX_MESSAGE_LENGTH }

/-- Configuration whose sampling applies only to `error`-level entries. -/
def errorSampledCfg : Config :=
  { level := .debug, format := .text, color := false, showTime := true,
    showLevel := true, tags := [], context := [], filter := none,
    sampling := some { rate := 1, levels := some [.error] },
    maxMessageLength := DEFAULT_MAX_MESSAGE_LENGTH }

/-- The one-record map used by the C7 witness. -/
def c7Perf : MapL PerformanceData :=
  [("a", ⟨"op", 5, none, none, some [("k", JVal.str "v")]⟩)]

/-- Configuration at minimum level `error`. -/
def errorCfg : Config :=
  { warnCfg with level := .error }

/-- The custom predicate used by the C8 witness. -/
def c8Custom : LogEntry → Bool := fun e => e.message == "ok"

/-- The filter used by the C8 witness. -/
def c8Filter : LogFilterConfig :=
  { includeTags := some ["a"], excludeTags := some ["x"], custom := some c8Custom }

/-- The entry used by the C8 witness. -/
def c8Entry : LogEntry := { level := .info, message := "ok", tags := ["a"] }

/-- Indices `n, n−1, …, 1`. -/
def descIndices : Nat → List Nat
  | 0 => []
  | n + 1 => (n + 1) :: descIndices n

/-- The directory used by the C5 witness: an active file and one backup. -/
def rotateFs : FS := [("app.log", "live"), ("app.log.1", "b1")]

/-- The file state used by the C5 witness. -/
def rotateSt : FileState := ⟨rotateFs, true, true, some "app.log"⟩

/-! ## Claim C1 — console redirection state machine -/

/-- C1, counterexample: `redirectConsoleToLogger` captures unconditionally,
so a second redirect without an intervening restore stores the first
redirect's forwarders instead of the true original, and a subsequent
`restoreConsole` leaves the global console forwarding. -/
theorem c1_counterexample :
    (redirectConsoleToLogger 2 (redirectConsoleToLogger 1 initialConsoleState)).originalConsole ≠
      some nativeConsole ∧
    (restoreConsole (redirectConsoleToLogger 2 (redirectConsoleToLogger 1 initialConsoleState))).console ≠
      nativeConsole := by
  decide

/-- C1, amended: `redirectConsoleToLogger` always overwrites the
`_originalConsole` slot with the current global console (there is no
already-redirected guard); consequently only a nest-free pair is safe: when
no capture is held, a single redirect followed by `restoreConsole` returns
the process state — in particular every global console method — exactly to
what it was before the redirect. -/
theorem c1_redirect_capture (loggerId : Nat) (s : ConsoleState)
    (h : s.originalConsole = none) :
    (redirectConsoleToLogger loggerId s).originalConsole = some s.console ∧
    restoreConsole (redirectConsoleToLogger loggerId s) = s := by
  obtain ⟨c, o⟩ := s
  cases h
  exact ⟨rfl, rfl⟩

/-- C1, witness for the amended theorem at the initial process state. -/
theorem c1_redirect_capture_witness :
    (redirectConsoleToLogger 7 initialConsoleState).originalConsole =
      some initialConsoleState.console ∧
    restoreConsole (redirectConsoleToLogger 7 initialConsoleState) =
      initialConsoleState :=
  c1_redirect_capture 7 initialConsoleState rfl

/-! ## Claim C2 — NO_COLOR versus the constructor's color derivation -/

/-- C2, counterexample: a Logger constructed with no explicit color setting,
`format = "color"`, a TTY attached and `NO_COLOR` set still emits console
output **with** color: the constructor materialises
`color := (format === "color" && isTTY())`, and `shouldUseColor` consults
the environment only when the color field is absent. -/
theorem c2_counterexample :
    loggerConsoleColor none (some LogFormat.color) ⟨true, true⟩ = true := by
  decide

/-- C2, amended: for a Logger constructed without an explicit color setting,
the console color decision equals the constructor-derived value
`format == "color" && TTY` — the `NO_COLOR` signal is consulted only when no
color value is present, which never happens for a constructed Logger.  Hence
`NO_COLOR` coincides with color-off exactly when the format is not the color
variant or no TTY is attached; the bare policy function `shouldUseColor`
does honour `NO_COLOR` when the color field is genuinely absent. -/
theorem c2_env_no_color (configColor : Option Bool) (configFormat : Option LogFormat)
    (env : ColorEnv) (hc : configColor = none) (hnc : env.noColor = true) :
    (loggerConsoleColor configColor configFormat env =
      (configFormat == some LogFormat.color && env.tty)) ∧
    ((configFormat = some LogFormat.color → env.tty = false) →
      loggerConsoleColor configColor configFormat env = false) ∧
    shouldUseColor none (configFormat.getD LogFormat.text) env false = false := by
  subst hc
  refine ⟨?_, ?_, ?_⟩
  · simp [loggerConsoleColor, shouldUseColor, constructorColor]
  · intro himp
    simp only [loggerConsoleColor, shouldUseColor, constructorColor, Option.getD]
    cases hf : configFormat with
    | none => simp
    | some f =>
      cases f with
      | color => simp [himp hf]
      | text => simp
      | json => simp
  · simp [shouldUseColor, hnc]

/-- C2, witness for the amended theorem: `format = "text"`, `NO_COLOR` set,
TTY attached — output is colorless. -/
theorem c2_env_no_color_witness :
    loggerConsoleColor none (some LogFormat.text) ⟨true, true⟩ = false :=
  (c2_env_no_color none (some LogFormat.text) ⟨true, true⟩ rfl rfl).2.1
    (fun h => absurd h (by decide))

/-! ## Claim C4 — the level gate -/

/-- C4: with no filter and no sampling configured, `writeLog` dispatches an
entry exactly when its priority reaches the configured minimum; the gate is
the `>=` comparison of `shouldLog`, over priorities debug=0, info=1, warn=2,
error=3, fatal=4 — so every strictly lower level is suppressed and every
level at or above the minimum is emitted. -/
theorem c4_level_gate (cfg : Config) (logCount : Nat) (rnd : ℚ) (entry : LogEntry)
    (hf : cfg.filter = none) (hs : cfg.sampling = none) :
    ((writeLog cfg logCount rnd entry).1.isSome =
      decide (LOG_LEVELS entry.level ≥ LOG_LEVELS cfg.level)) ∧
    (∀ l1 l2 : LogLevel, LOG_LEVELS l1 < LOG_LEVELS l2 →
      shouldLog { cfg with level := l2 } l1 = false) ∧
    (∀ l1 l2 : LogLevel, LOG_LEVELS l2 ≤ LOG_LEVELS l1 →
      shouldLog { cfg with level := l2 } l1 = true) ∧
    LOG_LEVELS .debug = 0 ∧ LOG_LEVELS .info = 1 ∧ LOG_LEVELS .warn = 2 ∧
    LOG_LEVELS .error = 3 ∧ LOG_LEVELS .fatal = 4 := by
  refine ⟨?_, ?_, ?_, rfl, rfl, rfl, rfl, rfl⟩
  · by_cases h : LOG_LEVELS entry.level ≥ LOG_LEVELS cfg.level
    · simp [writeLog, shouldLog, h, hf, hs, shouldFilterByTags, shouldSample]
    · simp [writeLog, shouldLog, h]
  · intro l1 l2 hlt
    simp only [shouldLog, decide_eq_false_iff_not]
    omega
  · intro l1 l2 hle
    simp [shouldLog, hle]

/-- C4, witness: an `info` entry against a `warn`-level Logger. -/
theorem c4_level_gate_witness :
    (writeLog warnCfg 0 0 { level := LogLevel.info, message := "m" }).1.isSome =
      decide (LOG_LEVELS LogLevel.info ≥ LOG_LEVELS warnCfg.level) :=
  (c4_level_gate warnCfg 0 0 { level := .info, message := "m" } rfl rfl).1

/-! ## Claim C9 — message truncation -/

/-- C9: a message longer than `maxMessageLength = M > 0` is emitted as its
first `M` characters followed by a single ellipsis marker; a message of
length `≤ M` is unchanged; `M = 0` never truncates; the default limit is
32768 characters. -/
theorem c9_truncate (entry : LogEntry) (M : Nat) :
    (0 < M → M < entry.message.length →
      (truncateMessageIfNeeded M entry).message = entry.message.take M ++ "…") ∧
    (entry.message.length ≤ M → truncateMessageIfNeeded M entry = entry) ∧
    truncateMessageIfNeeded 0 entry = entry ∧
    DEFAULT_MAX_MESSAGE_LENGTH = 32768 := by
  refine ⟨?_, ?_, ?_, rfl⟩
  · intro h1 h2
    have hcond : ¬(M = 0 ∨ entry.message.length ≤ M) := by omega
    simp [truncateMessageIfNeeded, hcond]
  · intro h
    unfold truncateMessageIfNeeded
    rw [if_pos (Or.inr h)]
  · unfold truncateMessageIfNeeded
    rw [if_pos (Or.inl (Nat.le_refl 0))]

/-- C9, witness: `"abcdef"` truncated at `M = 3`. -/
theorem c9_truncate_witness :
    (truncateMessageIfNeeded 3 { level := LogLevel.info, message := "abcdef" }).message =
      ("abcdef" : String).take 3 ++ "…" :=
  (c9_truncate { level := .info, message := "abcdef" } 3).1 (by decide) (by decide)

/-! ## Claim C3 — the sampling counter -/

/-- C3, counterexample: an `info` call that passes the level gate and the
tag filter and reaches the sampling stage is emitted (so it certainly
reached sampling), yet `logCount` stays `0` — the counter is only touched
when the configured level allow-list makes the entry subject to the
Bernoulli draw, not "regardless of the sampling configuration in force". -/
theorem c3_counterexample :
    (writeLog errorSampledCfg 0 0 { level := LogLevel.info, message := "m" }).1.isSome = true ∧
    (writeLog errorSampledCfg 0 0 { level := LogLevel.info, message := "m" }).2 = 0 := by
  decide

/-- C3, amended: for a call that passes the level gate and the tag filter,
`logCount` is incremented exactly once precisely when a sampling config is
present and the entry's level is subject to sampling (no level allow-list,
or an allow-list containing the level); with no sampling config, or with a
non-empty allow-list that omits the level, the counter is unchanged. -/
theorem c3_logcount (cfg : Config) (logCount : Nat) (rnd : ℚ) (entry : LogEntry)
    (hgate : shouldLog cfg entry.level = true)
    (hfilter : shouldFilterByTags cfg.filter
      { entry with tags := cfg.tags ++ entry.tags,
                   context := spreadMerge cfg.context entry.context } = true) :
    (cfg.sampling = none → (writeLog cfg logCount rnd entry).2 = logCount) ∧
    (∀ s, cfg.sampling = some s → samplingBypass s entry.level = true →
      (writeLog cfg logCount rnd entry).2 = logCount) ∧
    (∀ s, cfg.sampling = some s → samplingBypass s entry.level = false →
      (writeLog cfg logCount rnd entry).2 = logCount + 1) := by
  refine ⟨?_, ?_, ?_⟩
  · intro hs
    simp [writeLog, hgate, hfilter, hs, shouldSample]
  · intro s hs hb
    simp [writeLog, hgate, hfilter, hs, shouldSample, hb]
  · intro s hs hb
    simp only [writeLog, hgate, hfilter, hs, shouldSample, hb, Bool.not_true,
      Bool.false_eq_true, if_false, if_true, Bool.not_false]
    split <;> rfl

/-- C3, witness for the amended theorem: no sampling config, counter
unchanged. -/
theorem c3_logcount_witness :
    (writeLog warnCfg 0 0 { level := LogLevel.error, message := "m" }).2 = 0 :=
  (c3_logcount warnCfg 0 0 { level := .error, message := "m" }
    (by decide) (by decide)).1 rfl

/-! ## Claim C6 — performance map capacity -/

/-- `mset` grows the map by at most one entry. -/
theorem msize_mset_le {α : Type} (m : MapL α) (k : String) (v : α) :
    msize (mset m k v) ≤ msize m + 1 := by
  unfold mset msize
  split
  · simp
  · simp

/-- Deleting the head key shrinks the map to at most its tail. -/
theorem msize_mdelete_head {α : Type} (k : String) (v : α) (t : MapL α) :
    msize (mdelete ((k, v) :: t) k) ≤ msize t := by
  unfold mdelete msize
  rw [List.filter_cons]
  simp only [beq_self_eq_true, Bool.not_true, Bool.false_eq_true, if_false]
  exact List.length_filter_le _ t

/-- C6: provided the map respects the capacity bound, it still does after
`startPerformance`; at capacity the first-inserted record is evicted before
the insert; and the generated id is returned unconditionally. -/
theorem c6_perf_capacity (perf : MapL PerformanceData) (operation idSuffix : String)
    (now : Int) (data : Option JObj)
    (h : msize perf ≤ MAX_PERFORMANCE_ENTRIES) :
    msize (startPerformance perf operation idSuffix now data).2 ≤ MAX_PERFORMANCE_ENTRIES ∧
    (startPerformance perf operation idSuffix now data).1 = operation ++ "-" ++ idSuffix ∧
    (∀ k v t, perf = (k, v) :: t →
      MAX_PERFORMANCE_ENTRIES ≤ msize perf →
      (startPerformance perf operation idSuffix now data).2 =
        mset (mdelete perf k) (operation ++ "-" ++ idSuffix)
          ⟨operation, now, none, none, data⟩) := by
  refine ⟨?_, rfl, ?_⟩
  · unfold startPerformance
    by_cases hcap : msize perf ≥ MAX_PERFORMANCE_ENTRIES
    · cases perf with
      | nil =>
        exfalso
        simp [msize, MAX_PERFORMANCE_ENTRIES] at hcap
      | cons p t =>
        obtain ⟨k1, v1⟩ := p
        simp only [if_pos hcap, mfirstKey, List.head?_cons, Option.map_some']
        have h1 : msize (mdelete ((k1, v1) :: t) k1) ≤ msize t :=
          msize_mdelete_head k1 v1 t
        have h2 := msize_mset_le (mdelete ((k1, v1) :: t) k1)
          (operation ++ "-" ++ idSuffix) (⟨operation, now, none, none, data⟩ : PerformanceData)
        have h3 : msize (((k1, v1) :: t) : MapL PerformanceData) = msize t + 1 := by
          simp [msize]
        omega
    · simp only [if_neg hcap]
      have h2 := msize_mset_le perf (operation ++ "-" ++ idSuffix)
        (⟨operation, now, none, none, data⟩ : PerformanceData)
      omega
  · intro k v t hperf hcap
    subst hperf
    unfold startPerformance
    rw [if_pos hcap]
    rfl

/-- C6, witness at the empty map. -/
theorem c6_perf_capacity_witness :
    msize (startPerformance [] "op" "s" 0 none).2 ≤ MAX_PERFORMANCE_ENTRIES :=
  (c6_perf_capacity [] "op" "s" 0 none (by decide)).1

/-! ## Claim C7 — endPerformance -/

/-- `mget` step: a non-matching head is skipped. -/
theorem mget_cons_ne {α : Type} (a : String) (b : α) (t : MapL α) (k2 : String)
    (h : (a == k2) = false) : mget ((a, b) :: t) k2 = mget t k2 := by
  simp [mget, List.find?_cons, h]

/-- `mget` step: a matching head is returned. -/
theorem mget_cons_self {α : Type} (a : String) (b : α) (t : MapL α) :
    mget ((a, b) :: t) a = some b := by
  simp [mget, List.find?_cons]

/-- `mdelete` step: a matching head is dropped. -/
theorem mdelete_cons_self {α : Type} (a : String) (b : α) (t : MapL α) :
    mdelete ((a, b) :: t) a = mdelete t a := by
  simp [mdelete, List.filter_cons]

/-- `mdelete` step: a non-matching head is kept. -/
theorem mdelete_cons_ne {α : Type} (a : String) (b : α) (t : MapL α) (k : String)
    (h : (a == k) = false) : mdelete ((a, b) :: t) k = (a, b) :: mdelete t k := by
  simp [mdelete, List.filter_cons, h]

/-- After `mdelete`, the deleted key is absent. -/
theorem mget_mdelete_self {α : Type} (m : MapL α) (k : String) :
    mget (mdelete m k) k = none := by
  induction m with
  | nil => rfl
  | cons p t ih =>
    obtain ⟨a, b⟩ := p
    by_cases hp : a = k
    · subst hp
      rw [mdelete_cons_self]
      exact ih
    · have ha : (a == k) = false := beq_eq_false_iff_ne.mpr hp
      rw [mdelete_cons_ne a b t k ha, mget_cons_ne a b _ k ha]
      exact ih

/-- `mdelete` leaves every other key untouched. -/
theorem mget_mdelete_ne {α : Type} (m : MapL α) (k k2 : String) (hne : k2 ≠ k) :
    mget (mdelete m k) k2 = mget m k2 := by
  induction m with
  | nil => rfl
  | cons p t ih =>
    obtain ⟨a, b⟩ := p
    by_cases hp : a = k
    · subst hp
      have h2 : (a == k2) = false := beq_eq_false_iff_ne.mpr (fun h => hne h.symm)
      rw [mdelete_cons_self, mget_cons_ne a b t k2 h2]
      exact ih
    · have ha : (a == k) = false := beq_eq_false_iff_ne.mpr hp
      rw [mdelete_cons_ne a b t k ha]
      by_cases hp2 : a = k2
      · subst hp2
        rw [mget_cons_self, mget_cons_self]
      · have h4 : (a == k2) = false := beq_eq_false_iff_ne.mpr hp2
        rw [mget_cons_ne a b _ k2 h4, mget_cons_ne a b t k2 h4]
        exact ih

/-- C7: with an unknown id, `endPerformance` issues the lookup-miss warning
and leaves the map unchanged; with a known id it issues a log at the given
severity whose message reports the operation name and `duration = now −
start`, whose data is the original data merged with the timing fields, and
it removes exactly that record from the map. -/
theorem c7_end_performance (perf : MapL PerformanceData) (now : Int) (id : String)
    (level : LogLevel) :
    (mget perf id = none →
      (endPerformanceCall perf now id level).1 =
        (.warn, "性能监控 ID 不存在: " ++ id, none) ∧
      (endPerformanceCall perf now id level).2 = perf) ∧
    (∀ pd, mget perf id = some pd →
      (endPerformanceCall perf now id level).1 =
        (level,
         "性能监控: " ++ pd.operation ++ " 耗时 " ++ toString (now - pd.startTime) ++ "ms",
         some (spreadMerge (pd.data.getD [])
           [("duration", .num (now - pd.startTime)),
            ("startTime", .num pd.startTime),
            ("endTime", .num now)])) ∧
      (endPerformanceCall perf now id level).2 = mdelete perf id ∧
      mget (mdelete perf id) id = none ∧
      ∀ k2, k2 ≠ id → mget (mdelete perf id) k2 = mget perf k2) := by
  constructor
  · intro h
    unfold endPerformanceCall
    rw [h]
    exact ⟨rfl, rfl⟩
  · intro pd h
    unfold endPerformanceCall
    rw [h]
    exact ⟨rfl, rfl, mget_mdelete_self perf id,
      fun k2 hk => mget_mdelete_ne perf id k2 hk⟩

/-- C7, witness: ending a known timer deletes its record. -/
theorem c7_end_performance_witness :
    (endPerformanceCall c7Perf 9 "a" LogLevel.info).2 = mdelete c7Perf "a" :=
  ((c7_end_performance c7Perf 9 "a" .info).2
    ⟨"op", 5, none, none, some [("k", JVal.str "v")]⟩ (by decide)).2.1

/-! ## Claim C10 — the lookup-miss warning goes through the pipeline -/

/-- C10: the warning that `endPerformance` emits for an unknown id is an
ordinary `warn()` call through the Logger's own pipeline, so a Logger whose
minimum level is `error` or `fatal` produces no output on any target, and
the performance map is untouched. -/
theorem c10_perf_warning_gated (cfg : Config) (logCount : Nat) (rnd : ℚ)
    (perf : MapL PerformanceData) (now : Int) (ts id : String) (level : LogLevel)
    (habs : mget perf id = none)
    (hlvl : cfg.level = .error ∨ cfg.level = .fatal) :
    (endPerformanceCall perf now id level).1.1 = .warn ∧
    (endPerformance cfg logCount rnd perf now ts id level).1 = none ∧
    (endPerformance cfg logCount rnd perf now ts id level).2.1 = perf := by
  have hcall : endPerformanceCall perf now id level =
      ((.warn, "性能监控 ID 不存在: " ++ id, none), perf) := by
    unfold endPerformanceCall
    rw [habs]
  have hgate : shouldLog cfg .warn = false := by
    rcases hlvl with hl | hl <;> simp [shouldLog, hl, LOG_LEVELS]
  refine ⟨by rw [hcall], ?_, ?_⟩ <;>
    simp [endPerformance, hcall, writeLog, hgate]

/-- C10, witness: unknown id against an `error`-level Logger — no output. -/
theorem c10_perf_warning_gated_witness :
    (endPerformance errorCfg 0 0 [] 9 "t" "x" LogLevel.info).1 = none :=
  (c10_perf_warning_gated errorCfg 0 0 [] 9 "t" "x" .info rfl (Or.inl rfl)).2.1

/-! ## Claim C8 — tag filter precedence -/

/-- When the entry carries no excluded tag (or no exclude list is
configured), the exclude check of `shouldFilterByTags` is clear. -/
theorem excludeSetClear (f : LogFilterConfig) (entry : LogEntry)
    (hexok : f.excludeTags.elim True (fun ex => hasAnyTag entry.tags ex = false)) :
    ((updateFilterSets (some f)).2).elim false (fun ex => hasAnyTag entry.tags ex) = false := by
  cases hfe : f.excludeTags with
  | none => simp [updateFilterSets, hfe]
  | some ex =>
    rw [hfe] at hexok
    simp only [Option.elim] at hexok
    simp only [updateFilterSets, Option.bind_eq_bind, Option.some_bind, hfe]
    split <;> simp [hexok]

/-- When the include list is absent, empty, or matched by the entry, the
include check of `shouldFilterByTags` is clear. -/
theorem includeSetClear (f : LogFilterConfig) (entry : LogEntry)
    (hincok : f.includeTags.elim True
      (fun inc => inc.length = 0 ∨ hasAnyTag entry.tags inc = true)) :
    ((updateFilterSets (some f)).1).elim false
      (fun inc => !(hasAnyTag entry.tags inc)) = false := by
  cases hfi : f.includeTags with
  | none => simp [updateFilterSets, hfi]
  | some inc =>
    rw [hfi] at hincok
    simp only [Option.elim] at hincok
    simp only [updateFilterSets, Option.bind_eq_bind, Option.some_bind, hfi]
    rcases hincok with hlen | htag
    · simp [hlen]
    · split <;> simp [htag]

/-- C8: fixed precedence of the tag filter on the merged tag list — any
excluded tag rejects before the include list is consulted; among
non-excluded entries a non-empty include list requires at least one
included tag; the custom predicate runs last and its verdict is final. -/
theorem c8_tag_filter (f : LogFilterConfig) (entry : LogEntry) :
    (∀ ex, f.excludeTags = some ex → hasAnyTag entry.tags ex = true →
      shouldFilterByTags (some f) entry = false) ∧
    (∀ inc, f.includeTags = some inc → 0 < inc.length →
      f.excludeTags.elim True (fun ex => hasAnyTag entry.tags ex = false) →
      hasAnyTag entry.tags inc = false →
      shouldFilterByTags (some f) entry = false) ∧
    (∀ p, f.custom = some p →
      f.excludeTags.elim True (fun ex => hasAnyTag entry.tags ex = false) →
      f.includeTags.elim True
        (fun inc => inc.length = 0 ∨ hasAnyTag entry.tags inc = true) →
      shouldFilterByTags (some f) entry = p entry) ∧
    (f.custom = none →
      f.excludeTags.elim True (fun ex => hasAnyTag entry.tags ex = false) →
      f.includeTags.elim True
        (fun inc => inc.length = 0 ∨ hasAnyTag entry.tags inc = true) →
      shouldFilterByTags (some f) entry = true) := by
  refine ⟨?_, ?_, ?_, ?_⟩
  · intro ex hex htag
    have hlen : 0 < ex.length := by
      cases ex with
      | nil => simp [hasAnyTag] at htag
      | cons a t => simp
    have hextrue : ((updateFilterSets (some f)).2).elim false
        (fun ex => hasAnyTag entry.tags ex) = true := by
      simp [updateFilterSets, hex, hlen, htag, Option.elim]
    simp [shouldFilterByTags, hextrue]
  · intro inc hinc hlen hexok htag
    have hexfalse := excludeSetClear f entry hexok
    have hinctrue : ((updateFilterSets (some f)).1).elim false
        (fun inc => !(hasAnyTag entry.tags inc)) = true := by
      simp [updateFilterSets, hinc, hlen, htag, Option.elim]
    simp [shouldFilterByTags, hexfalse, hinctrue]
  · intro p hp hexok hincok
    have hexfalse := excludeSetClear f entry hexok
    have hincfalse := includeSetClear f entry hincok
    simp [shouldFilterByTags, hexfalse, hincfalse, hp]
  · intro hcust hexok hincok
    have hexfalse := excludeSetClear f entry hexok
    have hincfalse := includeSetClear f entry hincok
    simp [shouldFilterByTags, hexfalse, hincfalse, hcust]

/-- C8, witness: an entry that clears exclude and include is decided by the
custom predicate. -/
theorem c8_tag_filter_witness :
    shouldFilterByTags (some c8Filter) c8Entry = c8Custom c8Entry :=
  (c8_tag_filter c8Filter c8Entry).2.2.1 c8Custom rfl
    (show hasAnyTag c8Entry.tags ["x"] = false by decide)
    (show ["a"].length = 0 ∨ hasAnyTag c8Entry.tags ["a"] = true from Or.inr (by decide))

/-! ## Claim C5 — log rotation -/

/-- Inserting a key that was absent makes it retrievable. -/
theorem mget_mset_absent {α : Type} (m : MapL α) (k : String) (v : α)
    (h : mget m k = none) : mget (mset m k v) k = some v := by
  induction m with
  | nil => simp [mget, mset, List.find?_cons]
  | cons p t ih =>
    obtain ⟨a, b⟩ := p
    by_cases hp : a = k
    · exfalso
      subst hp
      rw [mget_cons_self] at h
      cases h
    · have ha : (a == k) = false := beq_eq_false_iff_ne.mpr hp
      rw [mget_cons_ne a b t k ha] at h
      have ih2 := ih h
      unfold mset at ih2 ⊢
      simp only [List.any_cons, ha, Bool.false_or]
      cases hany : t.any (fun p => p.1 == k) with
      | true =>
        simp only [hany, if_true] at ih2
        simp only [hany, if_true, List.map_cons, ha, Bool.false_eq_true, if_false]
        rw [mget_cons_ne a b _ k ha]
        exact ih2
      | false =>
        simp only [hany, Bool.false_eq_true, if_false] at ih2
        simp only [hany, Bool.false_eq_true, if_false, List.cons_append]
        rw [mget_cons_ne a b _ k ha]
        exact ih2

/-- With an allowed path, `initFileOutput` always ends with an open writer
and an existing file (create+append). -/
theorem initFileOutput_ok (g : FS) (path : String)
    (hallow : isAllowedLogPath path = true) :
    (initFileOutput g path).2 = true ∧ mget (initFileOutput g path).1 path ≠ none := by
  unfold initFileOutput
  simp only [hallow, if_true]
  cases hg : mget g path with
  | some c => simp [hg]
  | none =>
    refine ⟨rfl, ?_⟩
    rw [mget_mset_absent g path "" hg]
    simp

/-- The rename attempts of the backup-shift loop are exactly
`path.i → path.(i+1)` for `i = n` down to `1`, independent of the
filesystem contents. -/
theorem shiftBackups_srcDst (path : String) :
    ∀ (n : Nat) (fs : FS),
      (shiftBackups fs path n).2.map srcDst =
        (descIndices n).map (fun i => some (backupPath path i, backupPath path (i + 1))) := by
  intro n
  induction n with
  | zero => intro fs; rfl
  | succ n ih =>
    intro fs
    unfold shiftBackups
    cases h : fsRename fs (backupPath path (n + 1)) (backupPath path (n + 2)) with
    | some fs2 => simp [descIndices, srcDst, ih]
    | none => simp [descIndices, srcDst, ih]

/-- A rename attempt on a missing backup leaves the filesystem unchanged
and the loop continues with the next index. -/
theorem shiftBackups_missing (fs : FS) (path : String) (n : Nat)
    (h : mget fs (backupPath path (n + 1)) = none) :
    (shiftBackups fs path (n + 1)).1 = (shiftBackups fs path n).1 := by
  have hr : fsRename fs (backupPath path (n + 1)) (backupPath path (n + 2)) = none := by
    unfold fsRename
    rw [h]
  simp only [shiftBackups, hr]

/-- C5: `rotateLog` closes the writer and the handle before any rename,
shifts `path.i → path.(i+1)` for `i = maxFiles−1` down to `1` ignoring
missing files, then renames the active file to `path.1`, and reopens for
append as the final step on both the success and the error path, leaving
the writer and handle open and the active file present. -/
theorem c5_rotate (st : FileState) (path : String) (maxFiles : Nat) (compress : Bool)
    (hp : st.filePath = some path) (hw : st.fileWriter = true)
    (hh : st.fileHandle = true) (hallow : isAllowedLogPath path = true) :
    (∀ fs3, fsRename (shiftBackups st.fs path (maxFiles - 1)).1 path (backupPath path 1) = some fs3 →
      (rotateLog st maxFiles compress).2 =
        RotAction.closeWriter :: RotAction.closeHandle ::
          (shiftBackups st.fs path (maxFiles - 1)).2 ++
          [RotAction.tryRename path (backupPath path 1) true] ++
          (if compress then [RotAction.warnCompress] else []) ++ [RotAction.reopen]) ∧
    (fsRename (shiftBackups st.fs path (maxFiles - 1)).1 path (backupPath path 1) = none →
      (rotateLog st maxFiles compress).2 =
        RotAction.closeWriter :: RotAction.closeHandle ::
          (shiftBackups st.fs path (maxFiles - 1)).2 ++
          [RotAction.tryRename path (backupPath path 1) false, RotAction.reopen]) ∧
    ((shiftBackups st.fs path (maxFiles - 1)).2.map srcDst =
      (descIndices (maxFiles - 1)).map
        (fun i => some (backupPath path i, backupPath path (i + 1)))) ∧
    (∀ g n, mget g (backupPath path (n + 1)) = none →
      (shiftBackups g path (n + 1)).1 = (shiftBackups g path n).1) ∧
    (rotateLog st maxFiles compress).1.fileWriter = true ∧
    (rotateLog st maxFiles compress).1.fileHandle = true ∧
    mget (rotateLog st maxFiles compress).1.fs path ≠ none := by
  obtain ⟨fs, w, hdl, fp⟩ := st
  simp only at hp hw hh
  subst hp
  subst hw
  subst hh
  dsimp only
  cases hr : fsRename (shiftBackups fs path (maxFiles - 1)).1 path (backupPath path 1) with
  | some fs3 =>
    refine ⟨?_, ?_, shiftBackups_srcDst path (maxFiles - 1) fs,
      fun g n hn => shiftBackups_missing g path n hn, ?_, ?_, ?_⟩
    · intro fs4 h4
      simp [rotateLog, hr]
    · intro h4
      exact Option.noConfusion h4
    · simp [rotateLog, hr, (initFileOutput_ok fs3 path hallow).1]
    · simp [rotateLog, hr, (initFileOutput_ok fs3 path hallow).1]
    · simp only [rotateLog, hr]
      exact (initFileOutput_ok fs3 path hallow).2
  | none =>
    refine ⟨?_, ?_, shiftBackups_srcDst path (maxFiles - 1) fs,
      fun g n hn => shiftBackups_missing g path n hn, ?_, ?_, ?_⟩
    · intro fs4 h4
      exact Option.noConfusion h4
    · intro h4
      simp [rotateLog, hr]
    · simp [rotateLog, hr,
        (initFileOutput_ok (shiftBackups fs path (maxFiles - 1)).1 path hallow).1]
    · simp [rotateLog, hr,
        (initFileOutput_ok (shiftBackups fs path (maxFiles - 1)).1 path hallow).1]
    · simp only [rotateLog, hr]
      exact (initFileOutput_ok (shiftBackups fs path (maxFiles - 1)).1 path hallow).2

/-- C5, witness: after rotating, the Logger is writable again. -/
theorem c5_rotate_witness :
    (rotateLog rotateSt 3 false).1.fileWriter = true :=
  (c5_rotate rotateSt "app.log" 3 false rfl rfl rfl (by decide)).2.2.2.2.1

end DreamerLogger
